import Mathlib

/-!
Shallow embedding of the data-access layer of app11.py (class DatabaseManager,
an SQLite-backed store with four tables: genes, marcadores, pacientes,
resultados_analises) together with proofs about its insert and query
operations.

Modelling notes, justified line by line against app11.py:

- Each table is a list of rows in insertion order; AUTOINCREMENT primary keys
  are modelled by a next-id counter per table (SQLite rowids start at 1 and,
  with AUTOINCREMENT, are never reused; the app never deletes rows).
- Timestamp columns (data_criacao, data_cadastro, data_analise, all
  DEFAULT CURRENT_TIMESTAMP) are omitted: no operation constrains or branches
  on them.
- TEXT columns that carry a CHECK constraint or a UNIQUE constraint that
  interacts with NULL (nivel_evidencia, sexo, nivel_risco, cpf) are modelled
  as Option String, because SQLite CHECK constraints pass on NULL and UNIQUE
  admits many NULLs. score_evidencia (REAL, CHECK 0..10) is Option Rat.
  NOT NULL text columns and unconstrained free-text columns are String.
- Every insert runs inside try/except sqlite3.IntegrityError: on any
  constraint violation the statement fails before commit, the function
  returns False (or None) and the database is unchanged.
- Crucially, the code opens connections with sqlite3.connect(...) and never
  executes PRAGMA foreign_keys = ON, and the sqlite3 default leaves foreign
  key enforcement OFF.  Hence the FOREIGN KEY clauses declared in
  init_database are NOT enforced at runtime: inserts with dangling gene_id,
  paciente_id or marcador_id succeed.  The insert operations below therefore
  do not check foreign keys, exactly like the running code.
- Queries with ORDER BY are modelled as an insertion sort by the ordered
  key; every ORDER BY key used by the app is duplicate-free in reachable
  states (UNIQUE columns), so any sorting algorithm yields the SQLite result.
  JOIN is modelled relationally as flatMap over the joined table filtered by
  the join condition.
-/

/-- Row of the genes table: gene_id INTEGER PRIMARY KEY AUTOINCREMENT,
nome_gene TEXT NOT NULL UNIQUE, descricao TEXT, funcao_biologica TEXT. -/
structure Gene where
  gene_id : Nat
  nome_gene : String
  descricao : String
  funcao_biologica : String
deriving DecidableEq, Repr

/-- Row of the marcadores table: marcador_id PRIMARY KEY AUTOINCREMENT,
gene_id INTEGER NOT NULL (FOREIGN KEY declared but not enforced, see header),
rs_number TEXT NOT NULL UNIQUE, tipo_variante TEXT, alelos TEXT,
descricao_marcador TEXT, nivel_evidencia TEXT CHECK (in Forte, Moderada,
Limitada, Insuficiente), score_evidencia REAL CHECK (0 <= x <= 10),
referencias_pmid TEXT. -/
structure Marcador where
  marcador_id : Nat
  gene_id : Nat
  rs_number : String
  tipo_variante : String
  alelos : String
  descricao_marcador : String
  nivel_evidencia : Option String
  score_evidencia : Option Rat
  referencias_pmid : String
deriving DecidableEq, Repr

/-- Row of the pacientes table: paciente_id PRIMARY KEY AUTOINCREMENT,
nome_paciente TEXT NOT NULL, cpf TEXT UNIQUE (nullable),
data_nascimento DATE, sexo TEXT CHECK (sexo IN (M, F)) (nullable). -/
structure Paciente where
  paciente_id : Nat
  nome_paciente : String
  cpf : Option String
  data_nascimento : String
  sexo : Option String
deriving DecidableEq, Repr

/-- Row of the resultados_analises table: resultado_id PRIMARY KEY
AUTOINCREMENT, paciente_id INTEGER NOT NULL, marcador_id INTEGER NOT NULL
(both FOREIGN KEYs declared but not enforced), genotipo_encontrado TEXT NOT
NULL, interpretacao_clinica TEXT, recomendacao_nutricional TEXT,
nivel_risco TEXT CHECK (in Baixo, Moderado, Alto), observacoes TEXT,
UNIQUE(paciente_id, marcador_id). -/
structure Resultado where
  resultado_id : Nat
  paciente_id : Nat
  marcador_id : Nat
  genotipo_encontrado : String
  interpretacao_clinica : String
  recomendacao_nutricional : String
  nivel_risco : Option String
  observacoes : String
deriving DecidableEq, Repr

/-- The whole SQLite database file (nutrigenetica.db): the four tables in
rowid order plus the next AUTOINCREMENT id of each table. -/
structure DB where
  genes : List Gene
  marcadores : List Marcador
  pacientes : List Paciente
  resultados : List Resultado
  next_gene_id : Nat
  next_marcador_id : Nat
  next_paciente_id : Nat
  next_resultado_id : Nat
deriving DecidableEq, Repr

/-- The state right after init_database on a fresh file: four empty tables. -/
def emptyDB : DB :=
  { genes := [], marcadores := [], pacientes := [], resultados := []
    next_gene_id := 1, next_marcador_id := 1
    next_paciente_id := 1, next_resultado_id := 1 }

/-- CHECK (nivel_evidencia IN (Forte, Moderada, Limitada, Insuficiente)):
SQLite CHECK passes when the value is NULL. -/
def nivelEvidenciaOk : Option String → Bool
  | none => true
  | some s => s == "Forte" || s == "Moderada" || s == "Limitada" || s == "Insuficiente"

/-- CHECK (score_evidencia >= 0 AND score_evidencia <= 10): passes on NULL. -/
def scoreEvidenciaOk : Option Rat → Bool
  | none => true
  | some x => decide (0 ≤ x) && decide (x ≤ 10)

/-- CHECK (sexo IN (M, F)): passes on NULL. -/
def sexoOk : Option String → Bool
  | none => true
  | some s => s == "M" || s == "F"

/-- CHECK (nivel_risco IN (Baixo, Moderado, Alto)): passes on NULL. -/
def nivelRiscoOk : Option String → Bool
  | none => true
  | some s => s == "Baixo" || s == "Moderado" || s == "Alto"

/-- DatabaseManager.inserir_gene (app11.py lines 108-131): INSERT INTO genes;
the only constraint that can fire is UNIQUE(nome_gene) (nome_gene is a
provided string, hence never NULL).  On IntegrityError returns False with the
database unchanged; on success returns True and appends the row. -/
def inserir_gene (db : DB) (nome_gene descricao funcao_biologica : String) :
    Bool × DB :=
  if db.genes.any (fun g => g.nome_gene == nome_gene) then
    (false, db)
  else
    (true,
      { db with
        genes := db.genes ++
          [{ gene_id := db.next_gene_id, nome_gene := nome_gene
             descricao := descricao, funcao_biologica := funcao_biologica }]
        next_gene_id := db.next_gene_id + 1 })

/-- DatabaseManager.inserir_marcador (app11.py lines 133-164): INSERT INTO
marcadores.  Enforced constraints: UNIQUE(rs_number), the CHECK on
nivel_evidencia and the CHECK on score_evidencia.  The FOREIGN KEY
(gene_id) REFERENCES genes(gene_id) is declared in the schema but NOT
enforced at runtime, because no connection ever issues
PRAGMA foreign_keys = ON (sqlite3 default: off); so gene_id is not
validated here, mirroring the running code. -/
def inserir_marcador (db : DB) (gene_id : Nat)
    (rs_number tipo_variante alelos descricao_marcador : String)
    (nivel_evidencia : Option String) (score_evidencia : Option Rat)
    (referencias_pmid : String) : Bool × DB :=
  if db.marcadores.any (fun m => m.rs_number == rs_number)
      || !nivelEvidenciaOk nivel_evidencia
      || !scoreEvidenciaOk score_evidencia then
    (false, db)
  else
    (true,
      { db with
        marcadores := db.marcadores ++
          [{ marcador_id := db.next_marcador_id, gene_id := gene_id
             rs_number := rs_number, tipo_variante := tipo_variante
             alelos := alelos, descricao_marcador := descricao_marcador
             nivel_evidencia := nivel_evidencia
             score_evidencia := score_evidencia
             referencias_pmid := referencias_pmid }]
        next_marcador_id := db.next_marcador_id + 1 })

/-- DatabaseManager.inserir_paciente (app11.py lines 166-191): INSERT INTO
pacientes.  Enforced constraints: UNIQUE(cpf) (vacuous when cpf is NULL,
SQLite UNIQUE admits many NULLs) and CHECK (sexo IN (M, F)) (passes on
NULL).  On success returns cursor.lastrowid, the freshly assigned
AUTOINCREMENT id; on IntegrityError returns None, database unchanged. -/
def inserir_paciente (db : DB) (nome_paciente : String) (cpf : Option String)
    (data_nascimento : String) (sexo : Option String) : Option Nat × DB :=
  if (match cpf with
      | none => true
      | some c => !db.pacientes.any (fun p => p.cpf == some c))
      && sexoOk sexo then
    (some db.next_paciente_id,
      { db with
        pacientes := db.pacientes ++
          [{ paciente_id := db.next_paciente_id
             nome_paciente := nome_paciente, cpf := cpf
             data_nascimento := data_nascimento, sexo := sexo }]
        next_paciente_id := db.next_paciente_id + 1 })
  else
    (none, db)

/-- DatabaseManager.inserir_resultado_analise (app11.py lines 193-225):
INSERT INTO resultados_analises.  Enforced constraints:
UNIQUE(paciente_id, marcador_id) and CHECK (nivel_risco IN (Baixo,
Moderado, Alto)) (passes on NULL).  The two FOREIGN KEYs are declared but
not enforced (no PRAGMA foreign_keys = ON), so dangling paciente_id or
marcador_id inserts succeed, exactly like the running code.  The source has
a default argument observacoes = ""; here callers pass it explicitly. -/
def inserir_resultado_analise (db : DB) (paciente_id marcador_id : Nat)
    (genotipo_encontrado interpretacao_clinica recomendacao_nutricional : String)
    (nivel_risco : Option String) (observacoes : String) : Bool × DB :=
  if db.resultados.any
        (fun r => r.paciente_id == paciente_id && r.marcador_id == marcador_id)
      || !nivelRiscoOk nivel_risco then
    (false, db)
  else
    (true,
      { db with
        resultados := db.resultados ++
          [{ resultado_id := db.next_resultado_id
             paciente_id := paciente_id, marcador_id := marcador_id
             genotipo_encontrado := genotipo_encontrado
             interpretacao_clinica := interpretacao_clinica
             recomendacao_nutricional := recomendacao_nutricional
             nivel_risco := nivel_risco, observacoes := observacoes }]
        next_resultado_id := db.next_resultado_id + 1 })

/-- ORDER BY modelled as sorting by a key drawn from a linear order. -/
def keyLe {α β : Type} (key : α → β) [LinearOrder β] (a b : α) : Prop :=
  key a ≤ key b

instance {α β : Type} (key : α → β) [LinearOrder β] :
    DecidableRel (keyLe key) :=
  fun a b => inferInstanceAs (Decidable (key a ≤ key b))

/-- Sort a list of rows by an ORDER BY key. -/
def sortKey {α β : Type} (key : α → β) [LinearOrder β] (l : List α) :
    List α :=
  l.insertionSort (keyLe key)

/-- DatabaseManager.get_genes (app11.py lines 227-237):
SELECT * FROM genes ORDER BY nome_gene. -/
def get_genes (db : DB) : List Gene :=
  sortKey (fun g => g.nome_gene) db.genes

/-- The inner join step shared by both marker queries: the rows of
marcadores m JOIN genes g ON m.gene_id = g.gene_id that come from one
marker row m. -/
def joinOne (gs : List Gene) (m : Marcador) : List (Marcador × Gene) :=
  (gs.filter (fun g => g.gene_id == m.gene_id)).map (fun g => (m, g))

/-- FROM marcadores m JOIN genes g ON m.gene_id = g.gene_id. -/
def marcadoresJoin (db : DB) : List (Marcador × Gene) :=
  db.marcadores.flatMap (joinOne db.genes)

/-- DatabaseManager.get_marcadores_por_gene (app11.py lines 239-258):
SELECT m.*, g.nome_gene FROM marcadores m JOIN genes g ON m.gene_id =
g.gene_id WHERE m.gene_id = ? ORDER BY m.rs_number. -/
def get_marcadores_por_gene (db : DB) (gene_id : Nat) :
    List (Marcador × Gene) :=
  sortKey (fun x => x.1.rs_number)
    ((marcadoresJoin db).filter (fun x => x.1.gene_id == gene_id))

/-- DatabaseManager.get_marcadores (app11.py lines 260-275):
SELECT m.*, g.nome_gene FROM marcadores m JOIN genes g ON m.gene_id =
g.gene_id ORDER BY g.nome_gene, m.rs_number. -/
def get_marcadores (db : DB) : List (Marcador × Gene) :=
  sortKey (fun x => toLex (x.2.nome_gene, x.1.rs_number)) (marcadoresJoin db)

/-- DatabaseManager.get_pacientes (app11.py lines 277-287):
SELECT * FROM pacientes ORDER BY nome_paciente. -/
def get_pacientes (db : DB) : List Paciente :=
  sortKey (fun p => p.nome_paciente) db.pacientes

/-- One row of the SELECT list of get_relatorio_paciente (minus the
timestamp column data_analise, see header). -/
structure ReportRow where
  nome_paciente : String
  cpf : Option String
  data_nascimento : String
  sexo : Option String
  nome_gene : String
  rs_number : String
  descricao_marcador : String
  nivel_evidencia : Option String
  score_evidencia : Option Rat
  genotipo_encontrado : String
  interpretacao_clinica : String
  recomendacao_nutricional : String
  nivel_risco : Option String
  observacoes : String
deriving DecidableEq, Repr

/-- Assemble one report row from the four joined rows. -/
def mkReportRow (p : Paciente) (g : Gene) (m : Marcador) (r : Resultado) :
    ReportRow :=
  { nome_paciente := p.nome_paciente, cpf := p.cpf
    data_nascimento := p.data_nascimento, sexo := p.sexo
    nome_gene := g.nome_gene, rs_number := m.rs_number
    descricao_marcador := m.descricao_marcador
    nivel_evidencia := m.nivel_evidencia
    score_evidencia := m.score_evidencia
    genotipo_encontrado := r.genotipo_encontrado
    interpretacao_clinica := r.interpretacao_clinica
    recomendacao_nutricional := r.recomendacao_nutricional
    nivel_risco := r.nivel_risco, observacoes := r.observacoes }

/-- The report rows contributed by one resultados_analises row r: JOIN
pacientes p ON r.paciente_id = p.paciente_id (combined with the WHERE
p.paciente_id = ? clause), JOIN marcadores m ON r.marcador_id =
m.marcador_id, JOIN genes g ON m.gene_id = g.gene_id. -/
def rowsFor (db : DB) (paciente_id : Nat) (r : Resultado) : List ReportRow :=
  (db.pacientes.filter
      (fun p => p.paciente_id == r.paciente_id && p.paciente_id == paciente_id)).flatMap
    (fun p =>
      (db.marcadores.filter (fun m => m.marcador_id == r.marcador_id)).flatMap
        (fun m =>
          (db.genes.filter (fun g => g.gene_id == m.gene_id)).map
            (fun g => mkReportRow p g m r)))

/-- The unsorted relation of get_relatorio_paciente: FROM resultados_analises
r joined with pacientes, marcadores and genes, WHERE p.paciente_id = ?. -/
def reportRows (db : DB) (paciente_id : Nat) : List ReportRow :=
  db.resultados.flatMap (rowsFor db paciente_id)

/-- DatabaseManager.get_relatorio_paciente (app11.py lines 289-325): the
four-way join above, ORDER BY g.nome_gene, m.rs_number. -/
def get_relatorio_paciente (db : DB) (paciente_id : Nat) : List ReportRow :=
  sortKey (fun row => toLex (row.nome_gene, row.rs_number))
    (reportRows db paciente_id)

/-! Concrete database states, built through the insert operations from the
empty database, used by the witnesses and counterexamples below. -/

/-- One patient Ana (paciente_id 1, cpf 111) registered in the empty
database. -/
def dbAna : DB :=
  (inserir_paciente emptyDB "Ana Souza" (some "111") "1980-05-05"
    (some "F")).2

/-- dbAna after a successful inserir_resultado_analise for (paciente 1,
marcador 1): the marcadores table is empty, so the stored result has a
dangling marcador_id — the insert nevertheless succeeds because foreign
keys are not enforced (no PRAGMA foreign_keys = ON). -/
def dbDangling : DB :=
  (inserir_resultado_analise dbAna 1 1 "TT" "interp" "rec" (some "Alto")
    "").2

/-- The empty database after a successful inserir_marcador whose gene_id 1
references no gene (foreign keys not enforced). -/
def dbOrphanMarker : DB :=
  (inserir_marcador emptyDB 1 "rs9923231" "missense" "C/T" "d"
    (some "Forte") (some 5) "").2

/-- Scenario state, step 1: gene MTHFR (gene_id 1). -/
def dbS1 : DB :=
  (inserir_gene emptyDB "MTHFR" "Metilenotetraidrofolato redutase"
    "Metabolismo do folato").2

/-- Scenario state, step 2: marker rs1801133 (marcador_id 1) under gene 1. -/
def dbS2 : DB :=
  (inserir_marcador dbS1 1 "rs1801133" "missense" "C/T" "Variante C677T"
    (some "Forte") (some 9) "17519439").2

/-- The marker row stored in dbS2 (and in every later scenario state). -/
def mScenario : Marcador :=
  { marcador_id := 1, gene_id := 1, rs_number := "rs1801133"
    tipo_variante := "missense", alelos := "C/T"
    descricao_marcador := "Variante C677T"
    nivel_evidencia := some "Forte", score_evidencia := some 9
    referencias_pmid := "17519439" }

/-- Scenario state, step 3: patient Maria Silva (paciente_id 1). -/
def dbS3 : DB :=
  (inserir_paciente dbS2 "Maria Silva" (some "999") "1990-01-01"
    (some "F")).2

/-- Scenario state, step 4: analysis result linking paciente 1 and
marcador 1 with genotype TT and risk Alto. -/
def dbScenario : DB :=
  (inserir_resultado_analise dbS3 1 1 "TT" "interp" "rec" (some "Alto")
    "").2

/-! Generic lemmas about the ORDER BY model and about filters keyed by a
duplicate-free column, shared by the claim theorems below. -/

theorem perm_sortKey {α β : Type} (key : α → β) [LinearOrder β] (l : List α) :
    List.Perm (sortKey key l) l :=
  List.perm_insertionSort _ l

theorem sorted_sortKey {α β : Type} (key : α → β) [LinearOrder β]
    (l : List α) : List.Sorted (keyLe key) (sortKey key l) := by
  haveI : IsTotal α (keyLe key) := ⟨fun a b => le_total (key a) (key b)⟩
  haveI : IsTrans α (keyLe key) := ⟨fun a b c hab hbc => le_trans hab hbc⟩
  exact List.sorted_insertionSort _ l

theorem mem_sortKey {α β : Type} (key : α → β) [LinearOrder β] {l : List α}
    {x : α} : x ∈ sortKey key l ↔ x ∈ l :=
  (List.perm_insertionSort _ l).mem_iff

theorem filter_key_eq_nil {α : Type} (key : α → Nat) (a : Nat) (l : List α)
    (h : a ∉ l.map key) : l.filter (fun x => key x == a) = [] := by
  induction l with
  | nil => rfl
  | cons y l ih =>
    simp only [List.map_cons, List.mem_cons, not_or] at h
    have hne : (key y == a) = false := by
      simp only [beq_eq_false_iff_ne, Ne]
      intro hEq
      exact h.1 hEq.symm
    simp [List.filter_cons, hne, ih h.2]

theorem filter_key_singleton {α : Type} (key : α → Nat) (a : Nat)
    (l : List α) (hnd : (l.map key).Nodup) (h : a ∈ l.map key) :
    ∃ x, l.filter (fun y => key y == a) = [x] ∧ key x = a ∧ x ∈ l := by
  induction l with
  | nil => simp at h
  | cons y l ih =>
    simp only [List.map_cons, List.nodup_cons] at hnd
    simp only [List.map_cons, List.mem_cons] at h
    by_cases hya : key y = a
    · refine ⟨y, ?_, hya, List.mem_cons_self y l⟩
      have hnil : a ∉ l.map key := fun hmem => hnd.1 (hya ▸ hmem)
      simp [List.filter_cons, hya, filter_key_eq_nil key a l hnil]
    · have hmem : a ∈ l.map key := by
        rcases h with h | h
        · exact absurd h.symm hya
        · exact h
      rcases ih hnd.2 hmem with ⟨x, hfil, hkey, hx⟩
      refine ⟨x, ?_, hkey, List.mem_cons_of_mem y hx⟩
      have hne : (key y == a) = false := by
        simp only [beq_eq_false_iff_ne, Ne]
        exact hya
      simp [List.filter_cons, hne, hfil]

/-- C1: the claim says that create_marker with a gene_id that does not
reference an existing gene returns false.  The running code does the
opposite: with an empty genes table, inserir_marcador with gene_id 1 and
otherwise valid fields returns True and stores a marker whose gene_id
dangles, because the sqlite3 connections never enable PRAGMA foreign_keys
(off by default), so the FOREIGN KEY declared in init_database is not
enforced.  This theorem evaluates the embedded code at that failing input. -/
theorem c1_foreign_key_not_enforced :
    emptyDB.genes = [] ∧
    (inserir_marcador emptyDB 1 "rs1801133" "missense" "C/T" "desc"
        (some "Forte") (some 5) "").1 = true ∧
    ((inserir_marcador emptyDB 1 "rs1801133" "missense" "C/T" "desc"
        (some "Forte") (some 5) "").2.marcadores.map Marcador.gene_id) = [1] := by
  decide

/-- C3: for every evidence score outside the closed interval [0,10],
inserir_marcador returns false and the database (in particular the
marcadores table) is unchanged, regardless of the validity of every other
argument: the CHECK constraint on score_evidencia raises IntegrityError
before commit. -/
theorem c3_create_marker_score_out_of_range (db : DB) (gid : Nat)
    (rs tv al dm : String) (ne : Option String) (x : Rat) (refs : String)
    (h : x < 0 ∨ 10 < x) :
    inserir_marcador db gid rs tv al dm ne (some x) refs = (false, db) ∧
      (inserir_marcador db gid rs tv al dm ne (some x) refs).2.marcadores.length
        = db.marcadores.length := by
  have hs : scoreEvidenciaOk (some x) = false := by
    rcases h with h | h
    · have hx : ¬ (0 ≤ x) := not_le.mpr h
      simp [scoreEvidenciaOk, hx]
    · have hx : ¬ (x ≤ 10) := not_le.mpr h
      simp [scoreEvidenciaOk, hx]
  constructor <;> simp [inserir_marcador, hs]

/-- C3 witness: the theorem applied at score 11 on the empty database. -/
theorem c3_witness :
    ((11 : Rat) < 0 ∨ 10 < (11 : Rat)) ∧
    inserir_marcador emptyDB 1 "rs1" "missense" "C/T" "d" (some "Forte")
        (some 11) "" = (false, emptyDB) ∧
    (inserir_marcador emptyDB 1 "rs1" "missense" "C/T" "d" (some "Forte")
        (some 11) "").2.marcadores.length = emptyDB.marcadores.length :=
  ⟨Or.inr (by norm_num),
    c3_create_marker_score_out_of_range emptyDB 1 "rs1" "missense" "C/T" "d"
      (some "Forte") 11 "" (Or.inr (by norm_num))⟩

/-- C5: for every (name, description, function) whose name is not already a
stored gene name, inserir_gene returns true and get_genes on the new state
contains an entry with that name. -/
theorem c5_create_gene_fresh_name (db : DB) (nome descricao funcao : String)
    (h : nome ∉ db.genes.map Gene.nome_gene) :
    (inserir_gene db nome descricao funcao).1 = true ∧
      nome ∈ (get_genes (inserir_gene db nome descricao funcao).2).map
        Gene.nome_gene := by
  have hany : db.genes.any (fun g => g.nome_gene == nome) = false := by
    rw [List.any_eq_false]
    intro g hg
    simp only [beq_iff_eq]
    intro hEq
    exact h (hEq ▸ List.mem_map_of_mem Gene.nome_gene hg)
  refine ⟨by simp [inserir_gene, hany], ?_⟩
  have hmem : nome ∈ ((inserir_gene db nome descricao funcao).2.genes).map
      Gene.nome_gene := by
    simp [inserir_gene, hany]
  have hperm :=
    (perm_sortKey (fun g => g.nome_gene)
      (inserir_gene db nome descricao funcao).2.genes).map Gene.nome_gene
  exact hperm.mem_iff.mpr hmem

/-- C5 witness: inserting the gene MTHFR into the empty database. -/
theorem c5_witness :
    "MTHFR" ∉ emptyDB.genes.map Gene.nome_gene ∧
    ((inserir_gene emptyDB "MTHFR" "desc" "func").1 = true ∧
      "MTHFR" ∈ (get_genes (inserir_gene emptyDB "MTHFR" "desc" "func").2).map
        Gene.nome_gene) :=
  ⟨by decide, c5_create_gene_fresh_name emptyDB "MTHFR" "desc" "func" (by decide)⟩

/-- C6: inserting a gene whose name is already stored returns false and
leaves the database, in particular the number of gene rows, unchanged:
the UNIQUE constraint on nome_gene raises IntegrityError before commit. -/
theorem c6_create_gene_duplicate (db : DB) (nome descricao funcao : String)
    (h : nome ∈ db.genes.map Gene.nome_gene) :
    inserir_gene db nome descricao funcao = (false, db) ∧
      (inserir_gene db nome descricao funcao).2.genes.length
        = db.genes.length := by
  have hany : db.genes.any (fun g => g.nome_gene == nome) = true := by
    rw [List.any_eq_true]
    rcases List.mem_map.mp h with ⟨g, hg, hEq⟩
    exact ⟨g, hg, by simp [hEq]⟩
  constructor <;> simp [inserir_gene, hany]

/-- C6 witness: inserting MTHFR twice starting from the empty database. -/
theorem c6_witness :
    "MTHFR" ∈ ((inserir_gene emptyDB "MTHFR" "d" "f").2.genes.map
      Gene.nome_gene) ∧
    (inserir_gene (inserir_gene emptyDB "MTHFR" "d" "f").2 "MTHFR" "d2" "f2"
        = (false, (inserir_gene emptyDB "MTHFR" "d" "f").2) ∧
      (inserir_gene (inserir_gene emptyDB "MTHFR" "d" "f").2 "MTHFR" "d2"
          "f2").2.genes.length
        = (inserir_gene emptyDB "MTHFR" "d" "f").2.genes.length) :=
  ⟨by decide,
    c6_create_gene_duplicate (inserir_gene emptyDB "MTHFR" "d" "f").2 "MTHFR"
      "d2" "f2" (by decide)⟩

/-- C9: for every provided sex value outside M and F, inserir_paciente
returns none and adds no patient row, even when every other field is valid:
the CHECK constraint on sexo raises IntegrityError before commit.  The spec
does not list this failure cause for create_patient. -/
theorem c9_create_patient_invalid_sex (db : DB) (nome : String)
    (cpf : Option String) (nasc s : String) (h : s ≠ "M" ∧ s ≠ "F") :
    inserir_paciente db nome cpf nasc (some s) = (none, db) ∧
      (inserir_paciente db nome cpf nasc (some s)).2.pacientes.length
        = db.pacientes.length := by
  have hs : sexoOk (some s) = false := by simp [sexoOk, h.1, h.2]
  constructor <;> simp [inserir_paciente, hs]

/-- C9 witness: sex X with a fresh cpf on the empty database. -/
theorem c9_witness :
    (("X" : String) ≠ "M" ∧ ("X" : String) ≠ "F") ∧
    (inserir_paciente emptyDB "Maria Silva" (some "12345678900") "1990-01-01"
        (some "X") = (none, emptyDB) ∧
      (inserir_paciente emptyDB "Maria Silva" (some "12345678900") "1990-01-01"
          (some "X")).2.pacientes.length = emptyDB.pacientes.length) :=
  ⟨⟨by decide, by decide⟩,
    c9_create_patient_invalid_sex emptyDB "Maria Silva" (some "12345678900")
      "1990-01-01" "X" ⟨by decide, by decide⟩⟩

/-- C10: for every provided risk level outside Baixo, Moderado and Alto,
inserir_resultado_analise returns false and adds no row, even for a fresh
(paciente_id, marcador_id) pair: the CHECK constraint on nivel_risco raises
IntegrityError before commit.  The spec does not list this failure cause
for create_analysis_result. -/
theorem c10_create_result_invalid_risk (db : DB) (pid mid : Nat)
    (gen interp rec obs : String) (risco : String)
    (h : risco ≠ "Baixo" ∧ risco ≠ "Moderado" ∧ risco ≠ "Alto") :
    inserir_resultado_analise db pid mid gen interp rec (some risco) obs
        = (false, db) ∧
      (inserir_resultado_analise db pid mid gen interp rec (some risco)
          obs).2.resultados.length = db.resultados.length := by
  have hr : nivelRiscoOk (some risco) = false := by
    simp [nivelRiscoOk, h.1, h.2.1, h.2.2]
  constructor <;> simp [inserir_resultado_analise, hr]

/-- C10 witness: risk level Altissimo for a fresh pair on the empty
database. -/
theorem c10_witness :
    (("Altissimo" : String) ≠ "Baixo" ∧ ("Altissimo" : String) ≠ "Moderado" ∧
      ("Altissimo" : String) ≠ "Alto") ∧
    (inserir_resultado_analise emptyDB 1 1 "TT" "interp" "rec"
        (some "Altissimo") "" = (false, emptyDB) ∧
      (inserir_resultado_analise emptyDB 1 1 "TT" "interp" "rec"
          (some "Altissimo") "").2.resultados.length
        = emptyDB.resultados.length) :=
  ⟨⟨by decide, by decide, by decide⟩,
    c10_create_result_invalid_risk emptyDB 1 1 "TT" "interp" "rec" ""
      "Altissimo" ⟨by decide, by decide, by decide⟩⟩

/-- C4 counterexample: the claim states that for every cpf not yet used,
inserir_paciente returns the newly assigned identifier.  On the empty
database the cpf 12345678900 is unused, yet the call below returns None
(and adds no row), because its sexo argument X violates the CHECK
constraint on sexo — a failure cause independent of the cpf. -/
theorem c4_counterexample :
    (∀ p ∈ emptyDB.pacientes, p.cpf ≠ some "12345678900") ∧
    inserir_paciente emptyDB "Maria Silva" (some "12345678900") "1990-01-01"
        (some "X") = (none, emptyDB) := by
  decide

/-- C4 amended: for every cpf already used by a stored patient,
inserir_paciente returns none and the number of patient rows is unchanged;
for every cpf not yet used, provided the sexo argument satisfies its CHECK
constraint (M, F or NULL), it returns the newly assigned identifier
(cursor.lastrowid, the next AUTOINCREMENT id). -/
theorem c4_create_patient_cpf (db : DB) (nome : String) (c : String)
    (nasc : String) (s : Option String) :
    (some c ∈ db.pacientes.map Paciente.cpf →
      inserir_paciente db nome (some c) nasc s = (none, db) ∧
        (inserir_paciente db nome (some c) nasc s).2.pacientes.length
          = db.pacientes.length)
    ∧ (some c ∉ db.pacientes.map Paciente.cpf → sexoOk s = true →
        (inserir_paciente db nome (some c) nasc s).1
          = some db.next_paciente_id) := by
  constructor
  · intro h
    have hany : db.pacientes.any (fun p => p.cpf == some c) = true := by
      rw [List.any_eq_true]
      rcases List.mem_map.mp h with ⟨p, hp, hEq⟩
      exact ⟨p, hp, by simp [hEq]⟩
    constructor <;> simp [inserir_paciente, hany]
  · intro h hs
    have hany : db.pacientes.any (fun p => p.cpf == some c) = false := by
      rw [List.any_eq_false]
      intro p hp
      simp only [beq_iff_eq]
      intro hEq
      exact h (hEq ▸ List.mem_map_of_mem Paciente.cpf hp)
    simp [inserir_paciente, hany, hs]

/-- C4 witness: on dbAna (cpf 111 taken), reusing cpf 111 returns none and
keeps one patient row, and the fresh cpf 222 with a valid sexo gets the
next id. -/
theorem c4_witness :
    (inserir_paciente dbAna "Bia" (some "111") "2001-02-02" (some "M")
        = (none, dbAna) ∧
      (inserir_paciente dbAna "Bia" (some "111") "2001-02-02"
          (some "M")).2.pacientes.length = dbAna.pacientes.length)
    ∧ (inserir_paciente dbAna "Bia" (some "222") "2001-02-02"
          (some "M")).1 = some dbAna.next_paciente_id :=
  ⟨(c4_create_patient_cpf dbAna "Bia" "111" "2001-02-02" (some "M")).1
      (by decide),
    (c4_create_patient_cpf dbAna "Bia" "222" "2001-02-02" (some "M")).2
      (by decide) (by decide)⟩

/-! Lemmas about the marcadores JOIN genes step. -/

theorem any_gene_id_iff (gs : List Gene) (a : Nat) :
    gs.any (fun g => g.gene_id == a) = true ↔ a ∈ gs.map Gene.gene_id := by
  rw [List.any_eq_true]
  constructor
  · rintro ⟨g, hg, hEq⟩
    exact List.mem_map.mpr ⟨g, hg, by simpa using hEq⟩
  · intro h
    rcases List.mem_map.mp h with ⟨g, hg, hEq⟩
    exact ⟨g, hg, by simp [hEq]⟩

theorem joinOne_eq_nil (gs : List Gene) (m : Marcador)
    (h : m.gene_id ∉ gs.map Gene.gene_id) : joinOne gs m = [] := by
  rw [joinOne, filter_key_eq_nil Gene.gene_id m.gene_id gs h]
  rfl

theorem joinOne_eq_pair (gs : List Gene) (m : Marcador)
    (hnd : (gs.map Gene.gene_id).Nodup) (h : m.gene_id ∈ gs.map Gene.gene_id) :
    ∃ g, g.gene_id = m.gene_id ∧ joinOne gs m = [(m, g)] := by
  rcases filter_key_singleton Gene.gene_id m.gene_id gs hnd h with
    ⟨g, hfil, hkey, _⟩
  exact ⟨g, hkey, by rw [joinOne, hfil]; rfl⟩

theorem map_fst_filter_join (gs : List Gene) (gid : Nat)
    (hnd : (gs.map Gene.gene_id).Nodup) (hmem : gid ∈ gs.map Gene.gene_id) :
    ∀ ms : List Marcador,
      ((ms.flatMap (joinOne gs)).filter
          (fun x => x.1.gene_id == gid)).map Prod.fst
        = ms.filter (fun m => m.gene_id == gid)
  | [] => rfl
  | m :: ms => by
    rw [List.flatMap_cons, List.filter_append, List.map_append,
      map_fst_filter_join gs gid hnd hmem ms, List.filter_cons]
    by_cases h : m.gene_id = gid
    · rcases joinOne_eq_pair gs m hnd (by rwa [h]) with ⟨g, _, hjoin⟩
      simp [hjoin, h]
    · have hkill : (joinOne gs m).filter (fun x => x.1.gene_id == gid)
          = [] := by
        rw [List.filter_eq_nil_iff]
        intro x hx
        have hfst : x.1 = m := by
          rcases List.mem_map.mp hx with ⟨g, _, hEq⟩
          rw [← hEq]
        simp [hfst, h]
      simp [hkill, h]

theorem map_fst_join (gs : List Gene)
    (hnd : (gs.map Gene.gene_id).Nodup) :
    ∀ ms : List Marcador,
      (ms.flatMap (joinOne gs)).map Prod.fst
        = ms.filter (fun m => gs.any (fun g => g.gene_id == m.gene_id))
  | [] => rfl
  | m :: ms => by
    rw [List.flatMap_cons, List.map_append, map_fst_join gs hnd ms,
      List.filter_cons]
    by_cases h : m.gene_id ∈ gs.map Gene.gene_id
    · rcases joinOne_eq_pair gs m hnd h with ⟨g, _, hjoin⟩
      have hany : gs.any (fun g => g.gene_id == m.gene_id) = true :=
        (any_gene_id_iff gs m.gene_id).mpr h
      simp [hjoin, hany]
    · have hany : gs.any (fun g => g.gene_id == m.gene_id) = false :=
        Bool.eq_false_iff.mpr
          (fun ht => h ((any_gene_id_iff gs m.gene_id).mp ht))
      simp [joinOne_eq_nil gs m h, hany]

/-- C8 counterexample: the claim states that get_marcadores (no gene filter)
returns all markers.  In the reachable state dbOrphanMarker — obtained from
the empty database by a successful inserir_marcador whose gene_id 1
references no gene, possible because foreign keys are not enforced — the
marcadores table has one row, yet get_marcadores returns the empty list:
the JOIN with genes silently drops the orphaned marker. -/
theorem c8_counterexample :
    dbOrphanMarker.marcadores.length = 1 ∧ get_marcadores dbOrphanMarker = [] := by
  decide

/-- C8 amended: for every existing gene_id (under the primary-key invariant
that gene ids are duplicate-free), get_marcadores_por_gene returns exactly
the markers whose gene_id equals it, sorted by rs_number ascending; and
get_marcadores returns all markers WHOSE GENE EXISTS — rather than all
markers, the inner join drops markers with a dangling gene_id — sorted by
(nome_gene, rs_number). -/
theorem c8_list_markers (db : DB)
    (hnd : (db.genes.map Gene.gene_id).Nodup) :
    (∀ gid ∈ db.genes.map Gene.gene_id,
      List.Perm ((get_marcadores_por_gene db gid).map Prod.fst)
          (db.marcadores.filter (fun m => m.gene_id == gid)) ∧
        List.Sorted (keyLe (fun x : Marcador × Gene => x.1.rs_number))
          (get_marcadores_por_gene db gid)) ∧
    (List.Perm ((get_marcadores db).map Prod.fst)
        (db.marcadores.filter
          (fun m => db.genes.any (fun g => g.gene_id == m.gene_id))) ∧
      List.Sorted
        (keyLe (fun x : Marcador × Gene => toLex (x.2.nome_gene, x.1.rs_number)))
        (get_marcadores db)) := by
  refine ⟨fun gid hgid => ⟨?_, sorted_sortKey _ _⟩, ⟨?_, sorted_sortKey _ _⟩⟩
  · have hperm :=
      ((perm_sortKey (fun x : Marcador × Gene => x.1.rs_number)
        ((marcadoresJoin db).filter (fun x => x.1.gene_id == gid))).map
          Prod.fst)
    rw [marcadoresJoin, map_fst_filter_join db.genes gid hnd hgid] at hperm
    exact hperm
  · have hperm :=
      ((perm_sortKey (fun x : Marcador × Gene =>
        toLex (x.2.nome_gene, x.1.rs_number)) (marcadoresJoin db)).map
          Prod.fst)
    rw [marcadoresJoin, map_fst_join db.genes hnd] at hperm
    exact hperm

/-- C8 witness: the scenario database (one gene MTHFR, one marker
rs1801133), at gene_id 1. -/
theorem c8_witness :
    (List.Perm ((get_marcadores_por_gene dbScenario 1).map Prod.fst)
        (dbScenario.marcadores.filter (fun m => m.gene_id == 1)) ∧
      List.Sorted (keyLe (fun x : Marcador × Gene => x.1.rs_number))
        (get_marcadores_por_gene dbScenario 1)) ∧
    (List.Perm ((get_marcadores dbScenario).map Prod.fst)
        (dbScenario.marcadores.filter
          (fun m => dbScenario.genes.any (fun g => g.gene_id == m.gene_id))) ∧
      List.Sorted
        (keyLe (fun x : Marcador × Gene => toLex (x.2.nome_gene, x.1.rs_number)))
        (get_marcadores dbScenario)) :=
  ⟨(c8_list_markers dbScenario (by decide)).1 1 (by decide),
    (c8_list_markers dbScenario (by decide)).2⟩

/-! Lemmas about the four-way join behind get_relatorio_paciente. -/

theorem filter_key_eq_singleton_of_mem {α : Type} (key : α → Nat)
    {l : List α} {x : α} (hnd : (l.map key).Nodup) (hx : x ∈ l) :
    l.filter (fun y => key y == key x) = [x] := by
  induction l with
  | nil => simp at hx
  | cons y l ih =>
    simp only [List.map_cons, List.nodup_cons] at hnd
    rcases List.mem_cons.mp hx with rfl | hx2
    · have hnil : key x ∉ l.map key := hnd.1
      simp [List.filter_cons, filter_key_eq_nil key (key x) l hnil]
    · have hne : key y ≠ key x := by
        intro hEq
        exact hnd.1 (hEq ▸ List.mem_map_of_mem key hx2)
      have hb : (key y == key x) = false := beq_eq_false_iff_ne.mpr hne
      simp [List.filter_cons, hb, ih hnd.2 hx2]

theorem rowsFor_eq_nil (db : DB) (pid : Nat) (r : Resultado)
    (h : r.paciente_id ≠ pid) : rowsFor db pid r = [] := by
  rw [rowsFor]
  have hfil : db.pacientes.filter
      (fun p => p.paciente_id == r.paciente_id && p.paciente_id == pid)
        = [] := by
    rw [List.filter_eq_nil_iff]
    intro p _
    simp only [Bool.and_eq_true, beq_iff_eq, not_and]
    intro h1 h2
    exact h (h1 ▸ h2)
  rw [hfil]
  rfl

theorem mem_rowsFor (db : DB) (pid : Nat) (r : Resultado) (row : ReportRow)
    (hrow : row ∈ rowsFor db pid r) :
    ∃ m ∈ db.marcadores, m.marcador_id = r.marcador_id ∧
      row.rs_number = m.rs_number := by
  rw [rowsFor] at hrow
  rcases List.mem_flatMap.mp hrow with ⟨p, _, hrow2⟩
  rcases List.mem_flatMap.mp hrow2 with ⟨m, hm, hrow3⟩
  rcases List.mem_map.mp hrow3 with ⟨g, _, hEq⟩
  have hm2 := List.mem_filter.mp hm
  refine ⟨m, hm2.1, by simpa using hm2.2, ?_⟩
  rw [← hEq]
  rfl

theorem rowsFor_hit (db : DB) (pid : Nat) (r : Resultado) (m : Marcador)
    (hpid : r.paciente_id = pid)
    (hp : pid ∈ db.pacientes.map Paciente.paciente_id)
    (hpnd : (db.pacientes.map Paciente.paciente_id).Nodup)
    (hm : m ∈ db.marcadores)
    (hmnd : (db.marcadores.map Marcador.marcador_id).Nodup)
    (hmid : m.marcador_id = r.marcador_id)
    (hg : m.gene_id ∈ db.genes.map Gene.gene_id)
    (hgnd : (db.genes.map Gene.gene_id).Nodup) :
    ∃ p g, rowsFor db pid r = [mkReportRow p g m r] := by
  rcases filter_key_singleton Paciente.paciente_id pid db.pacientes hpnd hp
    with ⟨p, hpfil, _, _⟩
  rcases filter_key_singleton Gene.gene_id m.gene_id db.genes hgnd hg
    with ⟨g, hgfil, _, _⟩
  have hmfil : db.marcadores.filter
      (fun y => y.marcador_id == r.marcador_id) = [m] := by
    rw [← hmid]
    exact filter_key_eq_singleton_of_mem Marcador.marcador_id hmnd hm
  have hpfil2 : db.pacientes.filter
      (fun q => q.paciente_id == r.paciente_id && q.paciente_id == pid)
        = [p] := by
    rw [hpid]
    have hfun : (fun q : Paciente =>
          q.paciente_id == pid && q.paciente_id == pid)
        = (fun q : Paciente => q.paciente_id == pid) := by
      funext q
      rw [Bool.and_self]
    rw [hfun]
    exact hpfil
  refine ⟨p, g, ?_⟩
  rw [rowsFor, hpfil2]
  simp [hmfil, hgfil]

theorem countP_flatMap_eq {α β : Type} (f : α → List β) (q : β → Bool)
    (p : α → Bool) :
    ∀ l : List α, (∀ a ∈ l, (f a).countP q = if p a then 1 else 0) →
      (l.flatMap f).countP q = l.countP p
  | [] => fun _ => rfl
  | a :: l => fun h => by
    rw [List.flatMap_cons, List.countP_append,
      h a (List.mem_cons_self a l),
      countP_flatMap_eq f q p l (fun x hx => h x (List.mem_cons_of_mem a hx)),
      List.countP_cons]
    exact Nat.add_comm _ _

theorem length_flatMap_eq {α β : Type} (f : α → List β) (p : α → Bool) :
    ∀ l : List α, (∀ a ∈ l, (f a).length = if p a then 1 else 0) →
      (l.flatMap f).length = l.countP p
  | [] => fun _ => rfl
  | a :: l => fun h => by
    rw [List.flatMap_cons, List.length_append,
      h a (List.mem_cons_self a l),
      length_flatMap_eq f p l (fun x hx => h x (List.mem_cons_of_mem a hx)),
      List.countP_cons]
    exact Nat.add_comm _ _

/-- C7 counterexample: the claim states that for every patient with
analyses, patient_report returns one row per AnalysisResult.  In the
reachable state dbDangling — patient 1 exists and a result for (paciente 1,
marcador 1) was stored successfully although no marker 1 exists, possible
because foreign keys are not enforced — patient 1 has one stored analysis
but get_relatorio_paciente returns zero rows: the JOIN with marcadores
silently drops the dangling result. -/
theorem c7_counterexample :
    1 ∈ dbDangling.pacientes.map Paciente.paciente_id ∧
    (dbDangling.resultados.filter (fun r => r.paciente_id == 1)).length = 1 ∧
    (get_relatorio_paciente dbDangling 1).length = 0 := by
  decide

/-- C7 amended: under the primary-key invariants (duplicate-free patient,
marker and gene ids), get_relatorio_paciente of a patient with zero stored
analyses — including a nonexistent patient — is the empty list, not an
error; and for a patient that exists whose every stored analysis references
an existing marker whose gene exists (referential integrity, which the
schema declares but the connections do not enforce), the report has exactly
one row per stored AnalysisResult of that patient and is sorted by
(nome_gene, rs_number). -/
theorem c7_patient_report (db : DB) (pid : Nat)
    (hpnd : (db.pacientes.map Paciente.paciente_id).Nodup)
    (hmnd : (db.marcadores.map Marcador.marcador_id).Nodup)
    (hgnd : (db.genes.map Gene.gene_id).Nodup) :
    (db.resultados.filter (fun r => r.paciente_id == pid) = [] →
      get_relatorio_paciente db pid = []) ∧
    (pid ∈ db.pacientes.map Paciente.paciente_id →
      (∀ r ∈ db.resultados, r.paciente_id = pid →
        ∃ m ∈ db.marcadores, m.marcador_id = r.marcador_id ∧
          m.gene_id ∈ db.genes.map Gene.gene_id) →
      (get_relatorio_paciente db pid).length
          = (db.resultados.filter (fun r => r.paciente_id == pid)).length ∧
        List.Sorted
          (keyLe (fun row : ReportRow => toLex (row.nome_gene, row.rs_number)))
          (get_relatorio_paciente db pid)) := by
  constructor
  · intro hempty
    have hall : ∀ r ∈ db.resultados, rowsFor db pid r = [] := by
      intro r hr
      apply rowsFor_eq_nil
      intro hEq
      have hcontra := List.filter_eq_nil_iff.mp hempty r hr
      simp [hEq] at hcontra
    have hrows : reportRows db pid = [] := by
      rw [reportRows]
      exact List.flatMap_eq_nil_iff.mpr hall
    rw [get_relatorio_paciente, hrows]
    rfl
  · intro hp hint
    refine ⟨?_, sorted_sortKey _ _⟩
    have hcond : ∀ r ∈ db.resultados,
        (rowsFor db pid r).length
          = if (r.paciente_id == pid) then 1 else 0 := by
      intro r hr
      by_cases hEq : r.paciente_id = pid
      · rcases hint r hr hEq with ⟨m, hm, hmid, hg⟩
        rcases rowsFor_hit db pid r m hEq hp hpnd hm hmnd hmid hg hgnd with
          ⟨p, g, hrows⟩
        simp [hrows, hEq]
      · rw [rowsFor_eq_nil db pid r hEq]
        simp [hEq]
    have hlen : (get_relatorio_paciente db pid).length
        = (reportRows db pid).length :=
      (perm_sortKey _ _).length_eq
    rw [hlen, reportRows,
      length_flatMap_eq (rowsFor db pid) (fun r => r.paciente_id == pid)
        db.resultados hcond,
      List.countP_eq_length_filter]

/-- C7 witness: on the scenario database, patient 2 (no analyses, does not
exist) gets an empty report, and patient 1 (one analysis with intact
references) gets a report of length one, sorted. -/
theorem c7_witness :
    get_relatorio_paciente dbScenario 2 = [] ∧
    ((get_relatorio_paciente dbScenario 1).length
        = (dbScenario.resultados.filter (fun r => r.paciente_id == 1)).length ∧
      List.Sorted
        (keyLe (fun row : ReportRow => toLex (row.nome_gene, row.rs_number)))
        (get_relatorio_paciente dbScenario 1)) :=
  ⟨(c7_patient_report dbScenario 2 (by decide) (by decide) (by decide)).1
      (by decide),
    (c7_patient_report dbScenario 1 (by decide) (by decide) (by decide)).2
      (by decide) (by decide)⟩

/-- C2 counterexample: the claim states that after the second (failed)
insert for an already-stored (patient, marker) pair, the patient report
contains exactly one row for that marker.  In the reachable state
dbDangling — the pair (paciente 1, marcador 1) was stored although no
marker 1 exists, possible because foreign keys are not enforced — the
second call does return false, but the report is empty: it contains zero
rows for that marker, not one. -/
theorem c2_counterexample :
    dbDangling.resultados.countP
        (fun r => r.paciente_id == 1 && r.marcador_id == 1) = 1 ∧
    (inserir_resultado_analise dbDangling 1 1 "TT" "interp" "rec"
        (some "Alto") "").1 = false ∧
    get_relatorio_paciente
        (inserir_resultado_analise dbDangling 1 1 "TT" "interp" "rec"
          (some "Alto") "").2 1 = [] := by
  decide

/-- C2 amended: for a (patient, marker) pair that already has its one
stored analysis result (the UNIQUE constraint guarantees at most one), a
second inserir_resultado_analise for the pair returns false and leaves the
database unchanged, and — provided the referenced marker and its gene
exist and the patient exists (referential integrity, declared by the
schema but not enforced by the connections) and under the primary-key and
UNIQUE(rs_number) invariants — the subsequent patient report contains
exactly one row carrying that marker accession. -/
theorem c2_duplicate_result (db : DB) (pid mid : Nat) (m : Marcador)
    (hm : m ∈ db.marcadores) (hmid : m.marcador_id = mid)
    (hg : m.gene_id ∈ db.genes.map Gene.gene_id)
    (hp : pid ∈ db.pacientes.map Paciente.paciente_id)
    (hpnd : (db.pacientes.map Paciente.paciente_id).Nodup)
    (hmnd : (db.marcadores.map Marcador.marcador_id).Nodup)
    (hgnd : (db.genes.map Gene.gene_id).Nodup)
    (hrsnd : (db.marcadores.map Marcador.rs_number).Nodup)
    (hone : db.resultados.countP
        (fun r => r.paciente_id == pid && r.marcador_id == mid) = 1)
    (gen interp recom : String) (risco : Option String) (obs : String) :
    inserir_resultado_analise db pid mid gen interp recom risco obs
        = (false, db) ∧
      ((get_relatorio_paciente
          (inserir_resultado_analise db pid mid gen interp recom risco
            obs).2 pid).countP
        (fun row => row.rs_number == m.rs_number)) = 1 := by
  have hdup : db.resultados.any
      (fun r => r.paciente_id == pid && r.marcador_id == mid) = true := by
    rw [List.any_eq_true]
    have hpos : 0 < db.resultados.countP
        (fun r => r.paciente_id == pid && r.marcador_id == mid) := by
      rw [hone]
      exact Nat.zero_lt_one
    simpa using List.countP_pos_iff.mp hpos
  have hfirst : inserir_resultado_analise db pid mid gen interp recom risco
      obs = (false, db) := by
    simp [inserir_resultado_analise, hdup]
  refine ⟨hfirst, ?_⟩
  rw [hfirst]
  show ((get_relatorio_paciente db pid).countP
    (fun row => row.rs_number == m.rs_number)) = 1
  have hcond : ∀ r ∈ db.resultados,
      (rowsFor db pid r).countP (fun row => row.rs_number == m.rs_number)
        = if (r.paciente_id == pid && r.marcador_id == mid) then 1
          else 0 := by
    intro r hr
    by_cases hEqp : r.paciente_id = pid
    · by_cases hEqm : r.marcador_id = mid
      · have hmid2 : m.marcador_id = r.marcador_id := by rw [hmid, hEqm]
        rcases rowsFor_hit db pid r m hEqp hp hpnd hm hmnd hmid2 hg hgnd with
          ⟨p, g, hrows⟩
        simp [hrows, hEqp, hEqm, mkReportRow, List.countP_cons]
      · have hzero : (rowsFor db pid r).countP
            (fun row => row.rs_number == m.rs_number) = 0 := by
          rw [List.countP_eq_zero]
          intro row hrow
          rcases mem_rowsFor db pid r row hrow with ⟨m2, hm2, hm2id, hrs⟩
          simp only [beq_iff_eq]
          intro hEqrs
          have h1 : m2.rs_number = m.rs_number := by rw [← hrs, hEqrs]
          have h2 : m2 = m := List.inj_on_of_nodup_map hrsnd hm2 hm h1
          refine hEqm ?_
          rw [← hm2id, h2]
          exact hmid
        rw [hzero]
        simp [hEqm]
    · rw [rowsFor_eq_nil db pid r hEqp]
      simp [hEqp]
  have hperm := (perm_sortKey
      (fun row : ReportRow => toLex (row.nome_gene, row.rs_number))
      (reportRows db pid)).countP_eq
    (fun row => row.rs_number == m.rs_number)
  rw [get_relatorio_paciente, hperm, reportRows,
    countP_flatMap_eq (rowsFor db pid)
      (fun row => row.rs_number == m.rs_number)
      (fun r => r.paciente_id == pid && r.marcador_id == mid)
      db.resultados hcond]
  exact hone

/-- C2 witness: the scenario database, where (paciente 1, marcador 1)
already has its stored result; a second insert fails and the report keeps
exactly one row for rs1801133. -/
theorem c2_witness :
    inserir_resultado_analise dbScenario 1 1 "CC" "i2" "r2" (some "Baixo")
        "" = (false, dbScenario) ∧
      ((get_relatorio_paciente
          (inserir_resultado_analise dbScenario 1 1 "CC" "i2" "r2"
            (some "Baixo") "").2 1).countP
        (fun row => row.rs_number == mScenario.rs_number)) = 1 :=
  c2_duplicate_result dbScenario 1 1 mScenario (by decide) (by decide)
    (by decide) (by decide) (by decide) (by decide) (by decide) (by decide)
    (by decide) "CC" "i2" "r2" (some "Baixo") ""
